import Mathlib

/-!
Shallow embedding of `mistral_ocr_script.py` (PDF/image OCR to Markdown
batch converter) and verification of its specification claims.

The script's pure parts (placeholder substitution, Markdown synthesis)
become Lean functions on `String`/`List Char`.  The effectful parts
(per-file PDF/image pipelines with remote calls, the batch loop in `main`)
become functions over explicit environments that record the outcome of
each external interaction (file open, upload, signed-URL fetch, OCR
call, delete, write), returning the produced value together with the
trace of remote calls issued.
-/

namespace MdOcr

/-! ## Configuration constants (lines 14-15 of the source) -/

/-- Constant `INCLUDE_BASE64_IMAGES_FROM_PDF = False` (line 14). -/
def INCLUDE_BASE64_IMAGES_FROM_PDF : Bool := false

/-- Constant `SUPPORTED_EXTENSIONS` (line 15). -/
def SUPPORTED_EXTENSIONS : List String := [".pdf", ".png", ".jpg", ".jpeg", ".webp"]

/-! ## OCR response data model

Duck-typed attribute probing in the source (`hasattr`/`getattr`) is
modelled by `Option` fields: `none` means the attribute is absent. -/

/-- An image object on an OCR page: `img.id`, `img.image_base64`
(both probed with `hasattr`, lines 69-72). -/
structure OcrImage where
  id : Option String
  image_base64 : Option String
deriving DecidableEq

/-- A page object: `page.markdown` (probed with `hasattr`, line 60) and
`page.images` (read with `getattr(page, 'images', [])`, line 64, so a
missing attribute and an empty list coincide). -/
structure Page where
  markdown : Option String
  images : List OcrImage
deriving DecidableEq

/-- An OCR response object: `ocr_response.pages` (probed with `hasattr`,
line 54; an absent attribute and a `None` value both collapse to `none`). -/
structure OcrResponse where
  pages : Option (List Page)
deriving DecidableEq

/-! ## Python string primitives used by the synthesizer -/

/-- Core of Python `str.replace` for a NONEMPTY pattern: scan left to
right, replace each non-overlapping occurrence of `pat` by `rep`.  The
`skip` counter consumes the remainder of a matched occurrence.  (The
script only ever calls `replace` with patterns of the shape
`![id](id)`, which are nonempty, so the empty-pattern corner of
Python's `replace` is irrelevant and left unmodelled.) -/
def replAux (pat rep : List Char) : List Char → Nat → List Char
  | [], _ => []
  | _ :: rest, skip + 1 => replAux pat rep rest skip
  | c :: rest, 0 =>
    if !pat.isEmpty && pat.isPrefixOf (c :: rest) then
      rep ++ replAux pat rep rest (pat.length - 1)
    else
      c :: replAux pat rep rest 0

/-- Python `str.replace` on character lists (nonempty pattern). -/
def replaceL (pat rep s : List Char) : List Char := replAux pat rep s 0

/-- Python `markdown_str.replace(placeholder, replacement)` on `String`. -/
def pyReplace (s pat rep : String) : String := ⟨replaceL pat.data rep.data s.data⟩

/-- Python `sep.join(parts)`. -/
def pyJoin (sep : String) : List String → String
  | [] => ""
  | [x] => x
  | x :: xs => x ++ sep ++ pyJoin sep xs

/-- Python truthiness of an optional string: `None` and the empty
string are falsy.  Used for `if not api_key` (line 240) and for
`if not signed_url_str` (line 124); the same truthiness test governs
the cleanup guard `if uploaded_file_id:` (line 153). -/
def pyTruthyStr : Option String → Bool
  | none => false
  | some s => !s.isEmpty

/-- Insertion into a Python `dict` modelled as an association list kept
in insertion order: an existing key keeps its position and gets the new
value, a new key is appended. -/
def dictInsert (d : List (String × String)) (k v : String) : List (String × String) :=
  if d.any (fun kv => kv.1 == k) then
    d.map (fun kv => if kv.1 == k then (k, v) else kv)
  else
    d ++ [(k, v)]

/-! ## Markdown synthesis (lines 38-76 of the source) -/

/-- Function `replace_images_in_markdown` (lines 38-47): for each `(img_id, url)`
in the dict, replace every occurrence of `![img_id](img_id)` by
`![img_id](url)`; an empty dict returns the input unchanged. -/
def replace_images_in_markdown (markdown_str : String)
    (images_dict : List (String × String)) : String :=
  if images_dict.isEmpty then markdown_str
  else
    images_dict.foldl
      (fun md kv =>
        pyReplace md ("![" ++ kv.1 ++ "](" ++ kv.1 ++ ")")
          ("![" ++ kv.1 ++ "](" ++ kv.2 ++ ")"))
      markdown_str

/-- The `image_data` dict built at lines 67-72: images missing `id` or
`image_base64` are skipped; the value is `data:image/png;base64,` +
the raw base64 payload (line 72). -/
def buildImageData (imgs : List OcrImage) : List (String × String) :=
  imgs.foldl
    (fun d img =>
      match img.id, img.image_base64 with
      | some i, some b64 => dictInsert d i ("data:image/png;base64," ++ b64)
      | _, _ => d)
    []

/-- One iteration of the page loop (lines 58-74): a page without a
`markdown` attribute contributes nothing (`continue`, line 62);
otherwise its text, with placeholder substitution applied only when
`include_images` is set and the page carries images (lines 66-73). -/
def pageMarkdown (include_images : Bool) (page : Page) : Option String :=
  match page.markdown with
  | none => none
  | some md =>
    if include_images && !page.images.isEmpty then
      some (replace_images_in_markdown md (buildImageData page.images))
    else
      some md

/-- Function `generate_markdown_from_response` (lines 49-76): empty or absent
`pages` yields `""`; otherwise the retained page strings are joined
with the literal separator. -/
def generate_markdown_from_response (ocr_response : OcrResponse)
    (include_images : Bool) : String :=
  match ocr_response.pages with
  | none => ""
  | some pages =>
    if pages.isEmpty then ""
    else pyJoin "\n\n---\n\n" (pages.filterMap (pageMarkdown include_images))

/-! ## Per-file pipelines (lines 80-229 of the source) -/

/-- The remote-service calls a pipeline run can issue. -/
inductive RemoteCall where
  | stage
  | locate
  | process
  | release
deriving DecidableEq, BEq

/-- Environment of one `process_pdf_file` run: the outcome of each
external interaction.  `none` in an `Option` field models the
corresponding call raising an exception; `signedUrlResult = some none`
models a response object carrying neither a `signed_url` nor a `url`
attribute (line 122), and `some (some "")` an empty URL string — both
falsy at line 124.  `uploadResult = some id` models the upload call
returning an object whose `.id` is `id`; whether that id is truthy is
what the cleanup guard at line 153 tests. -/
structure PdfEnv where
  openOk : Bool
  hasUpload : Bool
  hasCreate : Bool
  uploadResult : Option String
  signedUrlResult : Option (Option String)
  ocrResult : Option OcrResponse
  deleteOk : Bool
deriving DecidableEq

/-- Result of one `process_pdf_file` run: the returned value, the trace
of remote calls issued, and whether the cleanup warning at line 160 was
printed. -/
structure PdfRun where
  result : Option OcrResponse
  calls : List RemoteCall
  releaseWarned : Bool
deriving DecidableEq

/-- The cleanup guard of the `finally` block fires (`if
uploaded_file_id:`, line 153 — Python truthiness): the file opened, an
upload method existed, the upload call returned (line 114 assigned the
id), and the assigned id is truthy, i.e. a non-empty string.  A run
whose upload returns a falsy (empty) id proceeds but skips the
delete. -/
def stagedOk (env : PdfEnv) : Bool :=
  env.openOk && (env.hasUpload || env.hasCreate) && pyTruthyStr env.uploadResult

/-- Function `process_pdf_file` (lines 80-160).  The `finally` block
(lines 151-160) deletes the uploaded file on every exit path in which
the guard `if uploaded_file_id:` (line 153) finds a TRUTHY id — a
returned but empty id skips the cleanup; a delete failure only sets
the warning.  The signed-URL check `if not signed_url_str:` (line 124)
is likewise a truthiness test: a raising fetch, a response without a
`signed_url`/`url` attribute, and an empty URL string all raise at
line 127, skipping the OCR call.  Exit paths, in source order:
`IOError` on open (line 141), no upload/create method (line 112),
upload raising (line 145), falsy signed URL (lines 124-127), OCR
raising (line 145), and normal return (line 139). -/
def process_pdf_file (env : PdfEnv) : PdfRun :=
  if !env.openOk then ⟨none, [], false⟩
  else if env.hasUpload || env.hasCreate then
    match env.uploadResult with
    | none => ⟨none, [RemoteCall.stage], false⟩
    | some fid =>
      let rel : List RemoteCall := if fid.isEmpty then [] else [RemoteCall.release]
      let warned : Bool := !fid.isEmpty && !env.deleteOk
      match env.signedUrlResult with
      | none => ⟨none, [RemoteCall.stage, RemoteCall.locate] ++ rel, warned⟩
      | some su =>
        if !pyTruthyStr su then
          ⟨none, [RemoteCall.stage, RemoteCall.locate] ++ rel, warned⟩
        else
          match env.ocrResult with
          | none =>
            ⟨none, [RemoteCall.stage, RemoteCall.locate, RemoteCall.process] ++ rel,
              warned⟩
          | some r =>
            ⟨some r, [RemoteCall.stage, RemoteCall.locate, RemoteCall.process] ++ rel,
              warned⟩
  else ⟨none, [], false⟩

/-- Environment of one `process_image_file` run (lines 164-229). -/
structure ImgEnv where
  readOk : Bool
  bytesNonEmpty : Bool
  ocrResult : Option OcrResponse
deriving DecidableEq

/-- Function `process_image_file` (lines 164-229): read failure (line 180) or a
zero-byte read (line 176) return `None` before any remote call; the
single OCR call either raises (`None`, line 225) or returns the
response. -/
def process_image_file (env : ImgEnv) : Option OcrResponse × List RemoteCall :=
  if !env.readOk then (none, [])
  else if !env.bytesNonEmpty then (none, [])
  else
    match env.ocrResult with
    | none => (none, [RemoteCall.process])
    | some r => (some r, [RemoteCall.process])

/-! ## Batch loop (`main`, lines 235-358 of the source) -/

/-- Kind of a candidate file, derived from its suffix (line 305-314). -/
inductive FileKind where
  | pdf
  | image
deriving DecidableEq

/-- One candidate file of the batch loop, with the environment its
pipeline run would see.  `outputName` is `output_md_path`; `isSelf`
models `file_path.resolve() == script_file_path`; `writeOk` models the
write at lines 333-334 succeeding; `critical` models an unexpected
exception inside the per-file `try` block after the pipeline returned a
response (line 346). -/
structure Candidate where
  outputName : String
  isSelf : Bool
  kind : FileKind
  pdfEnv : PdfEnv
  imgEnv : ImgEnv
  writeOk : Bool
  critical : Bool
deriving DecidableEq

/-- The three counters of `main` (lines 253-255). -/
structure Counters where
  files_processed : Nat
  files_skipped : Nat
  errors_occurred : Nat
deriving DecidableEq

/-- Observable per-iteration events of the batch loop. -/
inductive Event where
  | skippedExisting (out : String)
  | skippedSelf
  | remote (c : RemoteCall)
  | wrote (out : String) (content : String)
  | writeError (out : String)
  | pipelineFailed
  | criticalError
deriving DecidableEq

/-- Dispatch to the per-file pipeline (lines 309-314). -/
def pipelineRun (c : Candidate) : Option OcrResponse × List RemoteCall :=
  match c.kind with
  | FileKind.pdf =>
    let r := process_pdf_file c.pdfEnv
    (r.result, r.calls)
  | FileKind.image => process_image_file c.imgEnv

/-- One iteration of the batch loop (lines 281-349) over the current
filesystem `fs` (the set of existing output paths, as a list) and the
current counters `k`: skip when the output exists (lines 286-289) or
the candidate is the script itself (lines 293-298); otherwise run the
pipeline, and on a response generate Markdown (embedding images only
for a PDF with the flag set, line 322) and write it (lines 330-339),
counting exactly one of processed/skipped/errors. -/
def processOne (c : Candidate) (fs : List String) (k : Counters) :
    Counters × List String × List Event :=
  if c.outputName ∈ fs then
    ({k with files_skipped := k.files_skipped + 1}, fs,
      [Event.skippedExisting c.outputName])
  else if c.isSelf then
    ({k with files_skipped := k.files_skipped + 1}, fs, [Event.skippedSelf])
  else
    let evs := (pipelineRun c).2.map Event.remote
    match (pipelineRun c).1 with
    | some r =>
      if c.critical then
        ({k with errors_occurred := k.errors_occurred + 1}, fs,
          evs ++ [Event.criticalError])
      else
        let md := generate_markdown_from_response r
          (decide (c.kind = FileKind.pdf) && INCLUDE_BASE64_IMAGES_FROM_PDF)
        if c.writeOk then
          ({k with files_processed := k.files_processed + 1},
            fs ++ [c.outputName], evs ++ [Event.wrote c.outputName md])
        else
          ({k with errors_occurred := k.errors_occurred + 1}, fs,
            evs ++ [Event.writeError c.outputName])
    | none =>
      ({k with errors_occurred := k.errors_occurred + 1}, fs,
        evs ++ [Event.pipelineFailed])

/-- The whole batch loop (lines 281-349), folded over the candidates. -/
def runBatch (cands : List Candidate) (fs : List String) (k : Counters) :
    Counters × List String × List Event :=
  match cands with
  | [] => (k, fs, [])
  | c :: rest =>
    let step := processOne c fs k
    let next := runBatch rest step.2.1 step.1
    (next.1, next.2.1, step.2.2 ++ next.2.2)

/-- Environment of one `main` run: what `os.getenv` returned, whether
client construction and directory listing succeeded, the filtered
candidate list (lines 268-273) and the initially existing output
paths. -/
structure MainEnv where
  api_key : Option String
  clientInitOk : Bool
  listDirOk : Bool
  files_to_process : List Candidate
  initialFs : List String

/-- Exit status of `main` (lines 235-358): 1 on a falsy credential
(line 242), failed client construction (line 250) or failed directory
listing (line 265); 0 when no candidates were found (line 277);
otherwise 1 exactly when the loop counted at least one error
(line 358). -/
def main (env : MainEnv) : Nat :=
  if !pyTruthyStr env.api_key then 1
  else if !env.clientInitOk then 1
  else if !env.listDirOk then 1
  else if env.files_to_process.isEmpty then 0
  else
    let k := (runBatch env.files_to_process env.initialFs ⟨0, 0, 0⟩).1
    if k.errors_occurred > 0 then 1 else 0

/-- The placeholder string `![id](id)` built at line 44. -/
def placeholderFor (img_id : String) : String :=
  "![" ++ img_id ++ "](" ++ img_id ++ ")"

/-- The data URL built at line 72. -/
def imageDataUrl (payload : String) : String :=
  "data:image/png;base64," ++ payload

/-- The replacement string `![id](data:image/png;base64,<payload>)`
built at line 45 from the dict value of line 72. -/
def replacementFor (img_id payload : String) : String :=
  "![" ++ img_id ++ "](" ++ imageDataUrl payload ++ ")"

/-- Paths of successful writes in an event trace. -/
def writtenPaths (evs : List Event) : List String :=
  evs.filterMap (fun e =>
    match e with
    | Event.wrote p _ => some p
    | _ => none)

/-! ## Concrete fixtures used by witness theorems -/

/-- A PDF environment in which every external interaction succeeds and
the OCR call returns a zero-page response. -/
def wPdfEnvOk : PdfEnv :=
  ⟨true, true, true, some "file-id", some (some "signed-url"), some ⟨some []⟩, true⟩

/-- An image environment in which reading succeeds and the OCR call
returns a zero-page response. -/
def wImgEnvOk : ImgEnv := ⟨true, true, some ⟨some []⟩⟩

/-- An image candidate named `a`, output `a.md`, all steps succeeding. -/
def wImgCand : Candidate := ⟨"a.md", false, FileKind.image, wPdfEnvOk, wImgEnvOk, true, false⟩

/-- An image candidate whose OCR response has a middle page lacking the
`markdown` attribute. -/
def wMissCand : Candidate :=
  ⟨"b.md", false, FileKind.image, wPdfEnvOk,
    ⟨true, true, some ⟨some [⟨some "one", []⟩, ⟨none, []⟩, ⟨some "two", []⟩]⟩⟩,
    true, false⟩

/-! ## Helper lemmas about the Python string-replacement primitive -/

theorem isPrefixOf_iff (l₁ l₂ : List Char) : l₁.isPrefixOf l₂ = true ↔ l₁ <+: l₂ := by
  induction l₁ generalizing l₂ with
  | nil => simp
  | cons a as ih =>
    cases l₂ with
    | nil => simp
    | cons b bs => simp [List.isPrefixOf_cons₂, ih, List.cons_prefix_cons]

theorem replAux_skip (pat rep : List Char) (t s : List Char) :
    replAux pat rep (t ++ s) t.length = replAux pat rep s 0 := by
  induction t with
  | nil => rfl
  | cons c t' ih => simpa [replAux] using ih

/-- A match at the head is replaced and scanning resumes after it. -/
theorem replaceL_head_match (pat rep s : List Char) (hpat : pat ≠ []) :
    replaceL pat rep (pat ++ s) = rep ++ replaceL pat rep s := by
  cases pat with
  | nil => exact absurd rfl hpat
  | cons p pr =>
    have hpre : (p :: pr).isPrefixOf (p :: (pr ++ s)) = true :=
      (isPrefixOf_iff _ _).mpr (List.prefix_append (p :: pr) s)
    have hskip : replAux (p :: pr) rep (pr ++ s) pr.length = replAux (p :: pr) rep s 0 :=
      replAux_skip (p :: pr) rep pr s
    simp [replaceL, replAux, hpre, hskip]

/-- A string without any occurrence of the pattern is left untouched. -/
theorem replaceL_no_occ (pat rep : List Char) (s : List Char)
    (h : ∀ i, ¬ pat <+: s.drop i) : replaceL pat rep s = s := by
  induction s with
  | nil => rfl
  | cons c rest ih =>
    have hnp : pat.isPrefixOf (c :: rest) = false := by
      rw [Bool.eq_false_iff]
      intro hc
      exact h 0 ((isPrefixOf_iff _ _).mp hc)
    have ih2 : replAux pat rep rest 0 = rest :=
      ih (fun i => by simpa using h (i + 1))
    simp [replaceL, replAux, hnp, ih2]

/-- The leftmost occurrence of the pattern is replaced: a prefix `a`
containing no occurrence start is copied verbatim, the occurrence
becomes `rep`, and scanning continues on the remainder. -/
theorem replaceL_split (pat rep b : List Char) (hpat : pat ≠ []) (a : List Char)
    (h : ∀ i, i < a.length → ¬ pat <+: ((a ++ pat ++ b).drop i)) :
    replaceL pat rep (a ++ pat ++ b) = a ++ rep ++ replaceL pat rep b := by
  induction a with
  | nil => simpa using replaceL_head_match pat rep b hpat
  | cons c a' ih =>
    have h0 : ¬ pat <+: (c :: (a' ++ (pat ++ b))) := by
      simpa using h 0 (Nat.succ_pos _)
    have hcond : ¬(¬pat = [] ∧ pat <+: c :: (a' ++ (pat ++ b))) := fun hc => h0 hc.2
    have ih2 : replAux pat rep (a' ++ (pat ++ b)) 0 = a' ++ (rep ++ replaceL pat rep b) := by
      have h3 := ih (fun i hi => by simpa using h (i + 1) (Nat.succ_lt_succ hi))
      simpa [replaceL] using h3
    simp [replaceL, replAux, hcond, ih2]

/-! ## Characterization of one batch-loop iteration -/

theorem processOne_skip_exists (c : Candidate) (fs : List String) (k : Counters)
    (h : c.outputName ∈ fs) :
    processOne c fs k = ({k with files_skipped := k.files_skipped + 1}, fs,
      [Event.skippedExisting c.outputName]) := by
  simp [processOne, h]

theorem processOne_skip_self (c : Candidate) (fs : List String) (k : Counters)
    (h1 : c.outputName ∉ fs) (h2 : c.isSelf = true) :
    processOne c fs k = ({k with files_skipped := k.files_skipped + 1}, fs,
      [Event.skippedSelf]) := by
  simp [processOne, h1, h2]

theorem processOne_pipeline_fail (c : Candidate) (fs : List String) (k : Counters)
    (h1 : c.outputName ∉ fs) (h2 : c.isSelf = false)
    (h3 : (pipelineRun c).1 = none) :
    processOne c fs k = ({k with errors_occurred := k.errors_occurred + 1}, fs,
      (pipelineRun c).2.map Event.remote ++ [Event.pipelineFailed]) := by
  simp [processOne, h1, h2, h3]

theorem processOne_critical (c : Candidate) (fs : List String) (k : Counters)
    (r : OcrResponse) (h1 : c.outputName ∉ fs) (h2 : c.isSelf = false)
    (h3 : (pipelineRun c).1 = some r) (h4 : c.critical = true) :
    processOne c fs k = ({k with errors_occurred := k.errors_occurred + 1}, fs,
      (pipelineRun c).2.map Event.remote ++ [Event.criticalError]) := by
  simp [processOne, h1, h2, h3, h4]

theorem processOne_write (c : Candidate) (fs : List String) (k : Counters)
    (r : OcrResponse) (h1 : c.outputName ∉ fs) (h2 : c.isSelf = false)
    (h3 : (pipelineRun c).1 = some r) (h4 : c.critical = false)
    (h5 : c.writeOk = true) :
    processOne c fs k = ({k with files_processed := k.files_processed + 1},
      fs ++ [c.outputName],
      (pipelineRun c).2.map Event.remote ++ [Event.wrote c.outputName
        (generate_markdown_from_response r
          (decide (c.kind = FileKind.pdf) && INCLUDE_BASE64_IMAGES_FROM_PDF))]) := by
  simp [processOne, h1, h2, h3, h4, h5]

theorem processOne_write_fail (c : Candidate) (fs : List String) (k : Counters)
    (r : OcrResponse) (h1 : c.outputName ∉ fs) (h2 : c.isSelf = false)
    (h3 : (pipelineRun c).1 = some r) (h4 : c.critical = false)
    (h5 : c.writeOk = false) :
    processOne c fs k = ({k with errors_occurred := k.errors_occurred + 1}, fs,
      (pipelineRun c).2.map Event.remote ++ [Event.writeError c.outputName]) := by
  simp [processOne, h1, h2, h3, h4, h5]

/-- Every iteration increments exactly one counter, by exactly one. -/
theorem processOne_total (c : Candidate) (fs : List String) (k : Counters) :
    (processOne c fs k).1.files_processed + (processOne c fs k).1.files_skipped
      + (processOne c fs k).1.errors_occurred
    = k.files_processed + k.files_skipped + k.errors_occurred + 1 := by
  by_cases h1 : c.outputName ∈ fs
  · rw [processOne_skip_exists c fs k h1]
    simp
    omega
  · by_cases h2 : c.isSelf = true
    · rw [processOne_skip_self c fs k h1 h2]
      simp
      omega
    · rw [Bool.not_eq_true] at h2
      cases h3 : (pipelineRun c).1 with
      | none =>
        rw [processOne_pipeline_fail c fs k h1 h2 h3]
        simp
        omega
      | some r =>
        by_cases h4 : c.critical = true
        · rw [processOne_critical c fs k r h1 h2 h3 h4]
          simp
          omega
        · rw [Bool.not_eq_true] at h4
          by_cases h5 : c.writeOk = true
          · rw [processOne_write c fs k r h1 h2 h3 h4 h5]
            simp
            omega
          · rw [Bool.not_eq_true] at h5
            rw [processOne_write_fail c fs k r h1 h2 h3 h4 h5]
            simp
            omega

theorem writtenPaths_append (l1 l2 : List Event) :
    writtenPaths (l1 ++ l2) = writtenPaths l1 ++ writtenPaths l2 := by
  simp [writtenPaths]

theorem writtenPaths_remote_map (l : List RemoteCall) :
    writtenPaths (l.map Event.remote) = [] := by
  induction l with
  | nil => rfl
  | cons c rest ih => simp [writtenPaths]

/-- Per-iteration filesystem effect: either nothing is written and the
filesystem is unchanged, or exactly the candidate's output path is
written, and only when it did not exist before. -/
theorem processOne_fs_spec (c : Candidate) (fs : List String) (k : Counters) :
    ((processOne c fs k).2.1 = fs ∧ writtenPaths (processOne c fs k).2.2 = [])
    ∨ ((processOne c fs k).2.1 = fs ++ [c.outputName]
        ∧ writtenPaths (processOne c fs k).2.2 = [c.outputName]
        ∧ c.outputName ∉ fs) := by
  by_cases h1 : c.outputName ∈ fs
  · rw [processOne_skip_exists c fs k h1]
    exact Or.inl ⟨rfl, rfl⟩
  · by_cases h2 : c.isSelf = true
    · rw [processOne_skip_self c fs k h1 h2]
      exact Or.inl ⟨rfl, rfl⟩
    · rw [Bool.not_eq_true] at h2
      cases h3 : (pipelineRun c).1 with
      | none =>
        rw [processOne_pipeline_fail c fs k h1 h2 h3]
        exact Or.inl ⟨rfl, by simp [writtenPaths_append, writtenPaths_remote_map, writtenPaths]⟩
      | some r =>
        by_cases h4 : c.critical = true
        · rw [processOne_critical c fs k r h1 h2 h3 h4]
          exact Or.inl ⟨rfl, by simp [writtenPaths_append, writtenPaths_remote_map, writtenPaths]⟩
        · rw [Bool.not_eq_true] at h4
          by_cases h5 : c.writeOk = true
          · rw [processOne_write c fs k r h1 h2 h3 h4 h5]
            refine Or.inr ⟨rfl, ?_, h1⟩
            simp [writtenPaths_append, writtenPaths_remote_map, writtenPaths]
          · rw [Bool.not_eq_true] at h5
            rw [processOne_write_fail c fs k r h1 h2 h3 h4 h5]
            exact Or.inl ⟨rfl, by simp [writtenPaths_append, writtenPaths_remote_map, writtenPaths]⟩

/-- Whole-run filesystem effect: the final filesystem is the initial one
extended by exactly the written paths, which are distinct and were all
absent initially. -/
theorem runBatch_fs_spec (cands : List Candidate) :
    ∀ (fs : List String) (k : Counters),
      ∃ t, (runBatch cands fs k).2.1 = fs ++ t
        ∧ writtenPaths (runBatch cands fs k).2.2 = t
        ∧ t.Nodup
        ∧ ∀ p ∈ t, p ∉ fs := by
  induction cands with
  | nil =>
    intro fs k
    exact ⟨[], by simp [runBatch, writtenPaths]⟩
  | cons c rest ih =>
    intro fs k
    rcases processOne_fs_spec c fs k with ⟨hfs, hw⟩ | ⟨hfs, hw, hnotin⟩
    · rcases ih (processOne c fs k).2.1 (processOne c fs k).1 with ⟨t, h1, h2, h3, h4⟩
      refine ⟨t, ?_, ?_, h3, ?_⟩
      · simpa [runBatch, hfs] using h1
      · simp only [runBatch, writtenPaths_append, hw, h2, List.nil_append]
      · intro p hp
        have := h4 p hp
        rw [hfs] at this
        exact this
    · rcases ih (processOne c fs k).2.1 (processOne c fs k).1 with ⟨t, h1, h2, h3, h4⟩
      refine ⟨c.outputName :: t, ?_, ?_, ?_, ?_⟩
      · simp only [runBatch]
        rw [h1, hfs]
        simp
      · simp only [runBatch, writtenPaths_append, hw, h2]
        rfl
      · refine List.nodup_cons.mpr ⟨?_, h3⟩
        intro hc
        have := h4 c.outputName hc
        rw [hfs] at this
        exact this (by simp)
      · intro p hp
        rcases List.mem_cons.mp hp with he | ht
        · rw [he]
          exact hnotin
        · intro hin
          have := h4 p ht
          rw [hfs] at this
          exact this (by simp [hin])

/-! ## Claim theorems -/

/-- Helper for C8: the outcome of a delete call affects neither the
returned value nor the call trace of a PDF run. -/
theorem pdf_deleteOk_irrelevant (env : PdfEnv) (b : Bool) :
    (process_pdf_file {env with deleteOk := b}).result = (process_pdf_file env).result
    ∧ (process_pdf_file {env with deleteOk := b}).calls = (process_pdf_file env).calls := by
  obtain ⟨o, hu, hc2, ur, sr, oc, d⟩ := env
  show (process_pdf_file ⟨o, hu, hc2, ur, sr, oc, b⟩).result
      = (process_pdf_file ⟨o, hu, hc2, ur, sr, oc, d⟩).result
    ∧ (process_pdf_file ⟨o, hu, hc2, ur, sr, oc, b⟩).calls
      = (process_pdf_file ⟨o, hu, hc2, ur, sr, oc, d⟩).calls
  constructor <;>
    (unfold process_pdf_file
     dsimp only
     repeat' split
     all_goals rfl)

/-- C1 counterexample to the claim as stated: a run in which staging
succeeds in the sense that the upload call returns and an
uploaded-file id is obtained — but that id is the falsy empty string —
issues NO release call, because the cleanup guard at line 153 tests
Python truthiness, not assignment; the run otherwise proceeds and even
returns an OCR result. -/
theorem pdf_release_falsy_handle_counterexample :
    (⟨true, true, true, some "", some (some "signed-url"), some ⟨some []⟩,
      true⟩ : PdfEnv).uploadResult.isSome = true
    ∧ (process_pdf_file ⟨true, true, true, some "", some (some "signed-url"),
        some ⟨some []⟩, true⟩).result.isSome = true
    ∧ (process_pdf_file ⟨true, true, true, some "", some (some "signed-url"),
        some ⟨some []⟩, true⟩).calls.count RemoteCall.release = 0 := by
  decide

/-- C1 (amended): exactly one release (delete) call is issued iff the
run obtains a TRUTHY (non-empty) uploaded-file id (`stagedOk`): the
guard `if uploaded_file_id:` at line 153 fires on every exit path
after such an id is assigned, and the release is then the last call of
the run's trace; a run that never obtains a truthy id — including one
whose upload returns an empty-string id — issues no release call. -/
theorem pdf_release_exactly_once (env : PdfEnv) :
    ((process_pdf_file env).calls.count RemoteCall.release
      = if stagedOk env then 1 else 0)
    ∧ (stagedOk env = true →
        (process_pdf_file env).calls.getLast? = some RemoteCall.release) := by
  obtain ⟨o, hu, hc2, ur, sr, oc, d⟩ := env
  cases o with
  | false => simp [process_pdf_file, stagedOk]
  | true =>
    by_cases hor : (hu || hc2) = true
    · cases ur with
      | none =>
        simp [process_pdf_file, stagedOk, hor, pyTruthyStr]
        decide
      | some u =>
        by_cases hu0 : u.isEmpty <;>
          rcases sr with _ | (_ | s2) <;> rcases oc with _ | r <;>
          simp [process_pdf_file, stagedOk, hor, hu0, pyTruthyStr] <;>
          first
          | decide
          | (by_cases hs0 : s2.isEmpty <;> simp [hs0] <;> decide)
    · have hor2 : (hu || hc2) = false := by
        rwa [Bool.not_eq_true] at hor
      simp [process_pdf_file, stagedOk, hor2]

/-- C1 witness: a fully successful staged run, evaluated concretely. -/
theorem pdf_release_exactly_once_witness :
    stagedOk wPdfEnvOk = true
    ∧ (process_pdf_file wPdfEnvOk).calls.getLast? = some RemoteCall.release :=
  ⟨by decide, (pdf_release_exactly_once wPdfEnvOk).2 (by decide)⟩

/-- C8: a failure of the release (delete) call never changes a PDF
run's outcome: the returned value and the call trace are independent of
`deleteOk`, and so are the batch counters of the iteration that
dispatched the candidate. -/
theorem release_failure_preserves_outcome (env : PdfEnv) (b : Bool) :
    ((process_pdf_file {env with deleteOk := b}).result
      = (process_pdf_file env).result)
    ∧ ((process_pdf_file {env with deleteOk := b}).calls
      = (process_pdf_file env).calls)
    ∧ (∀ (out : String) (slf : Bool) (ie : ImgEnv) (w cr : Bool)
        (fs : List String) (k : Counters),
        (processOne ⟨out, slf, FileKind.pdf, {env with deleteOk := b}, ie, w, cr⟩ fs k).1
          = (processOne ⟨out, slf, FileKind.pdf, env, ie, w, cr⟩ fs k).1) := by
  refine ⟨(pdf_deleteOk_irrelevant env b).1, (pdf_deleteOk_irrelevant env b).2, ?_⟩
  intro out slf ie w cr fs k
  simp only [processOne, pipelineRun,
    (pdf_deleteOk_irrelevant env b).1, (pdf_deleteOk_irrelevant env b).2]

/-- C2: a candidate whose output path already exists, or which is the
script itself, is marked skipped (only the skipped counter moves), the
filesystem is unchanged, and its iteration emits no remote call at
all. -/
theorem skipped_file_no_remote_calls (c : Candidate) (fs : List String) (k : Counters)
    (h : c.outputName ∈ fs ∨ c.isSelf = true) :
    (processOne c fs k).1 = {k with files_skipped := k.files_skipped + 1}
    ∧ (processOne c fs k).2.1 = fs
    ∧ ∀ rc : RemoteCall, Event.remote rc ∉ (processOne c fs k).2.2 := by
  by_cases h1 : c.outputName ∈ fs
  · rw [processOne_skip_exists c fs k h1]
    exact ⟨rfl, rfl, by simp⟩
  · have h2 : c.isSelf = true := h.resolve_left h1
    rw [processOne_skip_self c fs k h1 h2]
    exact ⟨rfl, rfl, by simp⟩

/-- C2 witness: the image candidate `a` with `a.md` already present. -/
theorem skipped_file_no_remote_calls_witness :
    (wImgCand.outputName ∈ ["a.md"] ∨ wImgCand.isSelf = true)
    ∧ ((processOne wImgCand ["a.md"] ⟨0, 0, 0⟩).1 = ⟨0, 1, 0⟩
      ∧ (processOne wImgCand ["a.md"] ⟨0, 0, 0⟩).2.1 = ["a.md"]
      ∧ ∀ rc : RemoteCall,
          Event.remote rc ∉ (processOne wImgCand ["a.md"] ⟨0, 0, 0⟩).2.2) :=
  ⟨Or.inl (by decide),
    skipped_file_no_remote_calls wImgCand ["a.md"] ⟨0, 0, 0⟩ (Or.inl (by decide))⟩

/-- C6: after the batch loop, processed + skipped + errors equals the
number of candidate files considered (starting from any initial
counter values). -/
theorem counters_partition (cands : List Candidate) :
    ∀ (fs : List String) (k : Counters),
      (runBatch cands fs k).1.files_processed
        + (runBatch cands fs k).1.files_skipped
        + (runBatch cands fs k).1.errors_occurred
      = k.files_processed + k.files_skipped + k.errors_occurred + cands.length := by
  induction cands with
  | nil => intro fs k; simp [runBatch]
  | cons c rest ih =>
    intro fs k
    have h1 := processOne_total c fs k
    have h2 := ih (processOne c fs k).2.1 (processOne c fs k).1
    simp only [runBatch, List.length_cons]
    omega

/-- C9: over a whole batch run, an output file is written at most once
per target path and never to a path that already existed when the
candidate was dispatched — in particular never to a path present
initially. -/
theorem write_once_no_overwrite (cands : List Candidate) (fs0 : List String)
    (k0 : Counters) :
    (writtenPaths (runBatch cands fs0 k0).2.2).Nodup
    ∧ (writtenPaths (runBatch cands fs0 k0).2.2).Disjoint fs0 := by
  rcases runBatch_fs_spec cands fs0 k0 with ⟨t, h1, h2, h3, h4⟩
  rw [h2]
  refine ⟨h3, ?_⟩
  intro a ha
  exact h4 a ha

/-- C3: pages that all carry markdown synthesize to their texts joined
with the exact literal separator; in particular a three-page result is
page1, separator, page2, separator, page3. -/
theorem markdown_join_separator :
    (∀ (texts : List String) (inc : Bool),
      generate_markdown_from_response ⟨some (texts.map (fun t => ⟨some t, []⟩))⟩ inc
        = pyJoin "\n\n---\n\n" texts)
    ∧ (∀ (p1 p2 p3 : String) (inc : Bool),
      generate_markdown_from_response
          ⟨some [⟨some p1, []⟩, ⟨some p2, []⟩, ⟨some p3, []⟩]⟩ inc
        = p1 ++ "\n\n---\n\n" ++ p2 ++ "\n\n---\n\n" ++ p3) := by
  have hpm : ∀ (inc : Bool) (s : String), pageMarkdown inc ⟨some s, []⟩ = some s := by
    intro inc s
    simp [pageMarkdown]
  constructor
  · intro texts inc
    cases texts with
    | nil => rfl
    | cons t ts =>
      have hfm : ∀ l : List String,
          List.filterMap (pageMarkdown inc ∘ fun t => (⟨some t, []⟩ : Page)) l = l := by
        intro l
        induction l with
        | nil => rfl
        | cons x xs ih => simp [List.filterMap_cons, Function.comp, hpm, ih]
      simp [generate_markdown_from_response, List.filterMap_map, hpm, hfm]
  · intro p1 p2 p3 inc
    simp [generate_markdown_from_response, hpm, pyJoin, String.append_assoc]

/-- Helper for C4: the character list of the placeholder built at
line 44, made explicit. -/
theorem placeholderFor_data (img_id : String) :
    (placeholderFor img_id).data
      = ['!', '['] ++ img_id.data ++ ([']', '('] ++ (img_id.data ++ [')'])) := by
  have h1 : ("![" : String).data = ['!', '['] := rfl
  have h2 : ("](" : String).data = [']', '('] := rfl
  have h3 : (")" : String).data = [')'] := rfl
  simp [placeholderFor, h1, h2, h3]

/-- Helper for C4: the placeholder is never the empty string. -/
theorem placeholderFor_ne_nil (img_id : String) : (placeholderFor img_id).data ≠ [] := by
  rw [placeholderFor_data]
  simp

/-- C4: with embedding enabled and a page carrying an image with id and
payload, the synthesizer performs exact string substitution of the
placeholder: the leftmost occurrence (after a prefix `a` in which no
occurrence starts) becomes `![id](data:image/png;base64,<payload>)`
with scanning continuing after it, and a text with no occurrence of the
exact placeholder is left completely untouched. -/
theorem image_placeholder_substitution (img_id payload : String) (a b : List Char)
    (ha : ∀ i, i < a.length →
      ¬ (placeholderFor img_id).data <+:
        ((a ++ (placeholderFor img_id).data ++ b).drop i)) :
    generate_markdown_from_response
        ⟨some [⟨some ⟨a ++ (placeholderFor img_id).data ++ b⟩,
          [⟨some img_id, some payload⟩]⟩]⟩ true
      = ⟨a ++ (replacementFor img_id payload).data
          ++ replaceL (placeholderFor img_id).data (replacementFor img_id payload).data b⟩
    ∧ (∀ s : List Char,
        (∀ i, ¬ (placeholderFor img_id).data <+: s.drop i) →
        replaceL (placeholderFor img_id).data (replacementFor img_id payload).data s = s) := by
  constructor
  · have hchain :
        generate_markdown_from_response
            ⟨some [⟨some ⟨a ++ (placeholderFor img_id).data ++ b⟩,
              [⟨some img_id, some payload⟩]⟩]⟩ true
          = pyReplace ⟨a ++ (placeholderFor img_id).data ++ b⟩
              (placeholderFor img_id) (replacementFor img_id payload) := rfl
    rw [hchain]
    exact congrArg String.mk
      (replaceL_split (placeholderFor img_id).data
        (replacementFor img_id payload).data b (placeholderFor_ne_nil img_id) a ha)
  · intro s hs
    exact replaceL_no_occ _ _ s hs

/-- C4 witness: the spec's own example, with an occurrence and a
non-placeholder lookalike. -/
theorem image_placeholder_substitution_witness :
    (∀ i, i < ("Intro ".data).length →
      ¬ (placeholderFor "fig1").data <+:
        (("Intro ".data ++ (placeholderFor "fig1").data
          ++ " and ![fig1](other)".data).drop i))
    ∧ generate_markdown_from_response
        ⟨some [⟨some "Intro ![fig1](fig1) and ![fig1](other)",
          [⟨some "fig1", some "QQ=="⟩]⟩]⟩ true
      = "Intro ![fig1](data:image/png;base64,QQ==) and ![fig1](other)" := by
  refine ⟨by decide, ?_⟩
  have h := (image_placeholder_substitution "fig1" "QQ==" "Intro ".data
    " and ![fig1](other)".data (by decide)).1
  exact h.trans (by decide)

/-- C5: the exit status is 0 exactly when the credential is usable, the
client and the directory listing succeeded, and the loop counted no
error (vacuously, also when no candidate was found); it is 1 exactly
when the credential is missing/empty, the client failed, the listing
failed, or some per-file error was counted. -/
theorem exit_status_spec (env : MainEnv) :
    (main env = 0 ↔
      (pyTruthyStr env.api_key = true ∧ env.clientInitOk = true
        ∧ env.listDirOk = true
        ∧ (runBatch env.files_to_process env.initialFs ⟨0, 0, 0⟩).1.errors_occurred = 0))
    ∧ (main env = 1 ↔
      (pyTruthyStr env.api_key = false ∨ env.clientInitOk = false
        ∨ env.listDirOk = false
        ∨ (runBatch env.files_to_process env.initialFs ⟨0, 0, 0⟩).1.errors_occurred > 0)) := by
  obtain ⟨ak, ci, ld, cands, fs0⟩ := env
  simp only [main]
  cases hak : pyTruthyStr ak with
  | false => simp
  | true =>
    cases ci with
    | false => simp
    | true =>
      cases ld with
      | false => simp
      | true =>
        cases cands with
        | nil => simp [runBatch]
        | cons c rest =>
          by_cases he : (runBatch (c :: rest) fs0 ⟨0, 0, 0⟩).1.errors_occurred = 0
          · simp [he]
          · have hpos : 0 < (runBatch (c :: rest) fs0 ⟨0, 0, 0⟩).1.errors_occurred :=
              Nat.pos_of_ne_zero he
            simp [he, hpos]

/-- C7: a zero-page OCR result is a valid, non-error outcome: it
synthesizes to the empty string, the empty string is still written to
the output path, the processed counter moves and the error counter does
not. -/
theorem zero_page_processed (c : Candidate) (fs : List String) (k : Counters)
    (h1 : (pipelineRun c).1 = some ⟨some []⟩)
    (h2 : c.outputName ∉ fs) (h3 : c.isSelf = false)
    (h4 : c.critical = false) (h5 : c.writeOk = true) :
    (∀ inc : Bool, generate_markdown_from_response ⟨some []⟩ inc = "")
    ∧ processOne c fs k = ({k with files_processed := k.files_processed + 1},
        fs ++ [c.outputName],
        (pipelineRun c).2.map Event.remote ++ [Event.wrote c.outputName ""]) := by
  refine ⟨fun inc => rfl, ?_⟩
  rw [processOne_write c fs k ⟨some []⟩ h2 h3 h1 h4 h5]
  rfl

/-- C7 witness: the image candidate `a` with a zero-page response,
evaluated concretely. -/
theorem zero_page_processed_witness :
    ((pipelineRun wImgCand).1 = some ⟨some []⟩
      ∧ wImgCand.outputName ∉ ([] : List String)
      ∧ wImgCand.isSelf = false ∧ wImgCand.critical = false ∧ wImgCand.writeOk = true)
    ∧ processOne wImgCand [] ⟨0, 0, 0⟩
      = (⟨1, 0, 0⟩, ["a.md"], [Event.remote RemoteCall.process, Event.wrote "a.md" ""]) :=
  ⟨by decide,
    (zero_page_processed wImgCand [] ⟨0, 0, 0⟩ (by decide) (by decide) (by decide)
      (by decide) (by decide)).2⟩

/-- C10: a page lacking the markdown attribute is silently omitted —
the synthesized output is the same as if the page were not there at
all, so it contributes neither text nor a separator slot — and such a
response still counts as processed, not as an error. -/
theorem missing_markdown_page_omitted (l1 l2 : List Page) (p : Page) (inc : Bool)
    (hp : p.markdown = none) :
    generate_markdown_from_response ⟨some (l1 ++ p :: l2)⟩ inc
      = generate_markdown_from_response ⟨some (l1 ++ l2)⟩ inc
    ∧ ∀ (c : Candidate) (fs : List String) (k : Counters),
        (pipelineRun c).1 = some ⟨some (l1 ++ p :: l2)⟩ →
        c.outputName ∉ fs → c.isSelf = false → c.critical = false → c.writeOk = true →
        ((processOne c fs k).1.files_processed = k.files_processed + 1
          ∧ (processOne c fs k).1.errors_occurred = k.errors_occurred) := by
  have hpm : pageMarkdown inc p = none := by simp [pageMarkdown, hp]
  constructor
  · by_cases h0 : l1 ++ l2 = []
    · rcases List.append_eq_nil.mp h0 with ⟨e1, e2⟩
      subst e1; subst e2
      simp [generate_markdown_from_response, hpm, pyJoin]
    · simp [generate_markdown_from_response, List.filterMap_append,
        List.filterMap_cons, hpm, h0]
  · intro c fs k hc h2 h3 h4 h5
    rw [processOne_write c fs k ⟨some (l1 ++ p :: l2)⟩ h2 h3 hc h4 h5]
    simp

/-- C10 witness: a three-page response whose middle page lacks
markdown synthesizes like the two-page response, with a single
separator, and is counted as processed. -/
theorem missing_markdown_page_omitted_witness :
    ((⟨none, []⟩ : Page).markdown = none
      ∧ (pipelineRun wMissCand).1
        = some ⟨some ([⟨some "one", []⟩] ++ (⟨none, []⟩ : Page) :: [⟨some "two", []⟩])⟩)
    ∧ (generate_markdown_from_response
        ⟨some ([⟨some "one", []⟩] ++ (⟨none, []⟩ : Page) :: [⟨some "two", []⟩])⟩ false
        = generate_markdown_from_response ⟨some ([⟨some "one", []⟩] ++ [⟨some "two", []⟩])⟩ false)
    ∧ (generate_markdown_from_response
        ⟨some ([⟨some "one", []⟩] ++ (⟨none, []⟩ : Page) :: [⟨some "two", []⟩])⟩ false
        = "one\n\n---\n\ntwo")
    ∧ ((processOne wMissCand [] ⟨0, 0, 0⟩).1.files_processed = 1
      ∧ (processOne wMissCand [] ⟨0, 0, 0⟩).1.errors_occurred = 0) := by
  have h := missing_markdown_page_omitted [⟨some "one", []⟩] [⟨some "two", []⟩]
    ⟨none, []⟩ false rfl
  exact ⟨⟨rfl, by decide⟩, h.1, by decide,
    h.2 wMissCand [] ⟨0, 0, 0⟩ (by decide) (by decide) rfl rfl rfl⟩

end MdOcr
